import Mathlib

/-!
Verification of the oasm-nuclei-gen retrieval-augmented generation pipeline.

This file shallowly embeds the core operations of the repository
(`app/core/nuclei_runner.py`, `app/core/nuclei_service.py`,
`app/core/rag_engine.py`, `app/services/vector_db.py`) as executable Lean
definitions and proves the stated properties about them.

Python strings are modelled as Lean `String`; the Python string methods
used by the code (`strip`, `lower`, `split`, `startswith`, substring `in`,
slicing, `join`) are modelled by the structural `py*` helpers below so that
every definition evaluates by `decide`.  External effects (the LLM, the
embedding provider, the text splitter, md5, the float formatter) are
modelled as function-valued parameters: the code under verification only
ever calls them, so any function models them faithfully.
-/

set_option maxHeartbeats 1000000
set_option maxRecDepth 8192

namespace OasmNucleiGen

/-! ## Python string primitives -/

/-- Model of Python `str.strip` on the left end: drop leading whitespace. -/
def dropWs : List Char → List Char
  | [] => []
  | c :: cs => if c.isWhitespace then dropWs cs else c :: cs

/-- Model of Python `str.strip`: drop leading and trailing whitespace. -/
def pyStrip (s : String) : String :=
  ⟨List.reverse (dropWs (List.reverse (dropWs s.toList)))⟩

/-- Model of Python `str.lower` (ASCII case folding, as used by the code). -/
def pyLower (s : String) : String := ⟨s.toList.map Char.toLower⟩

/-- Model of Python `len` on strings (number of characters). -/
def pyLen (s : String) : Nat := s.toList.length

/-- Model of Python slicing `s[:n]` (first `n` characters). -/
def pyTake (s : String) (n : Nat) : String := ⟨s.toList.take n⟩

/-- `listStarts pat l` iff `pat` is an initial segment of `l`. -/
def listStarts : List Char → List Char → Bool
  | [], _ => true
  | _ :: _, [] => false
  | p :: ps, c :: cs => p == c && listStarts ps cs

/-- Model of Python `str.startswith`. -/
def pyStarts (s pat : String) : Bool := listStarts pat.toList s.toList

/-- `listHasSub pat l` iff `pat` occurs contiguously inside `l`. -/
def listHasSub (pat : List Char) : List Char → Bool
  | [] => listStarts pat []
  | c :: cs => listStarts pat (c :: cs) || listHasSub pat cs

/-- Model of the Python substring test `pat in s`. -/
def strContains (s pat : String) : Bool := listHasSub pat.toList s.toList

/-- Helper for `pySplitLines`: split a character list at newline characters. -/
def splitLinesAux : List Char → List Char → List (List Char)
  | [], acc => [acc.reverse]
  | c :: cs, acc =>
    if c == '\n' then acc.reverse :: splitLinesAux cs []
    else splitLinesAux cs (c :: acc)

/-- Model of Python `str.split` with separator newline. -/
def pySplitLines (s : String) : List String :=
  (splitLinesAux s.toList []).map (fun l => ⟨l⟩)

/-- Model of Python `sep.join(parts)`. -/
def pyJoin (sep : String) : List String → String
  | [] => ""
  | x :: xs => xs.foldl (fun acc y => acc ++ sep ++ y) x

/-- Helper for `pySplitCommaSpace`: split a character list at `", "`. -/
def splitCommaSpace : List Char → List Char → List (List Char)
  | [], acc => [acc.reverse]
  | ',' :: ' ' :: rest, acc => acc.reverse :: splitCommaSpace rest []
  | c :: rest, acc => splitCommaSpace rest (c :: acc)

/-- Model of Python `s.split(", ")`, the inverse of the `", ".join` done at
ingestion time. -/
def pySplitCommaSpace (s : String) : List String :=
  (splitCommaSpace s.toList []).map (fun l => ⟨l⟩)

/-! ## Data model (`app/models/template.py`, `app/services/vector_db.py`) -/

/-- `ValidationResult` from `app/models/template.py`. -/
structure ValidationResult where
  is_valid : Bool
  errors : List String
  warnings : List String
  deriving DecidableEq, Repr

/-- The flat metadata dictionary built by
`VectorDBService.load_nuclei_template` for one ingested template file. -/
structure TemplateMetadata where
  template_id : String
  name : String
  author : String
  severity : String
  description : String
  tags : String
  reference : String
  file_path : String
  classification : String
  deriving DecidableEq, Repr

/-- One document produced by `load_nuclei_template`. -/
structure NucleiDocument where
  id : String
  content : String
  metadata : TemplateMetadata
  deriving DecidableEq, Repr

/-- The chunk metadata built in `VectorDBService._split_document`:
the document metadata plus chunk bookkeeping keys. -/
structure ChunkMetadata where
  base : TemplateMetadata
  chunk_index : Nat
  total_chunks : Nat
  source_doc_id : String
  deriving DecidableEq, Repr

/-- One processed chunk as produced by `VectorDBService._split_document`. -/
structure ProcessedChunk where
  id : String
  content : String
  metadata : ChunkMetadata
  deriving DecidableEq, Repr

/-- One record committed to the ChromaDB collection by
`VectorDBService.add_documents`. -/
structure StoredChunk where
  id : String
  content : String
  metadata : ChunkMetadata
  embedding : List ℚ
  deriving DecidableEq, Repr

/-- The mutable state of a `VectorDBService` instance: `collection = none`
models `self.collection is None` (never initialized). -/
structure VectorStoreState where
  collection : Option (List StoredChunk)
  deriving DecidableEq, Repr

/-- One search result row as returned by `VectorDBService.search_similar`. -/
structure RetrievedMatch where
  content : String
  metadata : TemplateMetadata
  similarity : ℚ
  deriving DecidableEq, Repr

/-- The response value built by `NucleiTemplateService.generate_template`. -/
structure TemplateGenerationResponse where
  success : Bool
  template_id : String
  generated_template : String
  deriving DecidableEq, Repr

/-! ## `NucleiRunner._parse_validation_output` (`app/core/nuclei_runner.py`) -/

/-- Classification of one stderr line (body of the first loop of
`_parse_validation_output`): error keywords, then warning keywords, then the
`could not` / `unable to` fallback; anything else is discarded. -/
def classifyStderrLine (errors warnings : List String) (line : String) :
    List String × List String :=
  let l := pyStrip line
  if l == "" then (errors, warnings)
  else
    let low := pyLower l
    if ["error", "invalid", "failed", "fatal"].any (fun k => strContains low k) then
      (errors ++ [l], warnings)
    else if ["warning", "warn"].any (fun k => strContains low k) then
      (errors, warnings ++ [l])
    else if strContains low "could not" || strContains low "unable to" then
      (errors ++ [l], warnings)
    else (errors, warnings)

/-- Classification of one stdout line (second loop of
`_parse_validation_output`). -/
def classifyStdoutLine (errors : List String) (line : String) : List String :=
  let l := pyStrip line
  if l == "" then errors
  else
    let low := pyLower l
    if strContains low "loaded" && strContains low "template" then errors
    else if ["error", "invalid"].any (fun k => strContains low k) then errors ++ [l]
    else errors

/-- The line-classification phase of `_parse_validation_output`: stderr lines
first, stdout lines second, each split on newlines after stripping. -/
def classify_output (stdout stderr : String) : List String × List String :=
  let ew := (pySplitLines (pyStrip stderr)).foldl
    (fun (p : List String × List String) line => classifyStderrLine p.1 p.2 line)
    ([], [])
  ((pySplitLines (pyStrip stdout)).foldl classifyStdoutLine ew.1, ew.2)

/-- `NucleiRunner._parse_validation_output` (`nuclei_runner.py` lines
107-169): classify lines, compute `is_valid`, synthesize the generic
return-code error when nothing matched, and re-check `is_valid`. -/
def parse_validation_output (stdout stderr : String) (return_code : Int) :
    ValidationResult :=
  let ew := classify_output stdout stderr
  let errors := ew.1
  let warnings := ew.2
  let is_valid := return_code == 0 && errors.isEmpty
  let errors :=
    if !is_valid && errors.isEmpty && return_code != 0 then
      let e := ["Template validation failed with return code " ++ toString return_code]
      let e := if stdout != "" then e ++ ["Stdout: " ++ stdout] else e
      if stderr != "" then e ++ ["Stderr: " ++ stderr] else e
    else errors
  let is_valid := if return_code == 0 && errors.isEmpty then true else is_valid
  ⟨is_valid, errors, warnings⟩

/-- The timeout message placed on stderr by the `subprocess.TimeoutExpired`
branch of `NucleiRunner._run_subprocess`. -/
def timeoutMsg (timeout : Nat) : String :=
  "Nuclei validation timed out after " ++ toString timeout ++ " seconds"

/-- The `subprocess.TimeoutExpired` branch of `NucleiRunner._run_subprocess`
(`nuclei_runner.py` lines 100-101): empty stdout, a timeout message on
stderr, and return code 1. -/
def run_subprocess_timeout (timeout : Nat) : String × String × Int :=
  ("", timeoutMsg timeout, 1)

/-- The `ValidationResult` produced by `validate_template` when the
subprocess times out: the timeout triple fed to `_parse_validation_output`. -/
def validate_on_timeout (timeout : Nat) : ValidationResult :=
  let r := run_subprocess_timeout timeout
  parse_validation_output r.1 r.2.1 r.2.2

/-- The `FileNotFoundError` branch of `NucleiRunner._run_validation`
(`nuclei_runner.py` lines 74-80). -/
def binary_not_found_result (nuclei_binary : String) : ValidationResult :=
  ⟨false, ["Nuclei binary not found: " ++ nuclei_binary], []⟩

/-! ## `VectorDBService` (`app/services/vector_db.py`)

`self.text_splitter.split_text` (LangChain) and `hashlib.md5(...).hexdigest()`
are external collaborators and appear as function parameters `split_text` and
`md5hex`; the embedding backend appears as `embed`. -/

/-- The tags / author / reference joining done by `load_nuclei_template`:
`", ".join(values)`. -/
def join_tags (tags : List String) : String := pyJoin ", " tags

/-- `VectorDBService._split_document` (`vector_db.py` lines 183-211):
split the content, then build one chunk per split with
`chunk_id = f"{doc_id}_{file_hash}_chunk_{i}"` where `file_hash` is the
first 8 hex characters of `md5(file_path)`. -/
def split_document (split_text : String → List String)
    (md5hex : String → String) (document : NucleiDocument) :
    List ProcessedChunk :=
  let doc_id := document.id
  let file_path := document.metadata.file_path
  let chunks := split_text document.content
  chunks.enum.map fun p =>
    let file_hash := pyTake (md5hex file_path) 8
    { id := doc_id ++ "_" ++ file_hash ++ "_chunk_" ++ toString p.1
      content := p.2
      metadata :=
        { base := document.metadata
          chunk_index := p.1
          total_chunks := chunks.length
          source_doc_id := doc_id } }

/-- Embed one processed chunk and shape it as a collection record
(the per-batch `embed_documents` + `collection.add` step). -/
def toStoredChunk (embed : String → List ℚ) (c : ProcessedChunk) : StoredChunk :=
  ⟨c.id, c.content, c.metadata, embed c.content⟩

/-- The batched insertion loop of `add_documents` (`vector_db.py` lines
149-175): commit the processed chunks 5000 at a time, accumulating
`total_added`. -/
def add_batches (embed : String → List ℚ) (procs : List ProcessedChunk)
    (coll : List StoredChunk) (total : Nat) : List StoredChunk × Nat :=
  if h : procs = [] then (coll, total)
  else
    add_batches embed (procs.drop 5000)
      (coll ++ (procs.take 5000).map (toStoredChunk embed))
      (total + (procs.take 5000).length)
  termination_by procs.length
  decreasing_by
    simp only [List.length_drop]
    exact Nat.sub_lt (List.length_pos.mpr h) (by decide)

/-- `VectorDBService.add_documents` (`vector_db.py` lines 137-178): raise
`RuntimeError("Vector database not initialized")` when no collection is
attached; otherwise split every document, return 0 on no chunks, else
commit in batches and return the total added.  The returned state is the
service state after the call. -/
def add_documents (embed : String → List ℚ) (split_text : String → List String)
    (md5hex : String → String) (st : VectorStoreState)
    (documents : List NucleiDocument) :
    VectorStoreState × Except String Nat :=
  match st.collection with
  | none => (st, .error "Vector database not initialized")
  | some coll =>
    let processed := documents.flatMap (split_document split_text md5hex)
    if processed = [] then (st, .ok 0)
    else
      let r := add_batches embed processed coll 0
      (⟨some r.1⟩, .ok r.2)

/-- The result-filtering loop of `VectorDBService.search_similar`
(`vector_db.py` lines 238-249): for each backend row
`(document, metadata, distance)`, convert the distance to
`similarity = 1 - distance` and keep the row iff
`similarity >= similarity_threshold`, preserving the backend order. -/
def search_similar_filter :
    List (String × TemplateMetadata × ℚ) → ℚ → List RetrievedMatch
  | [], _ => []
  | r :: rest, similarity_threshold =>
    let similarity := 1 - r.2.2
    if similarity_threshold ≤ similarity then
      ⟨r.1, r.2.1, similarity⟩ :: search_similar_filter rest similarity_threshold
    else search_similar_filter rest similarity_threshold

/-- `VectorDBService.search_similar` (`vector_db.py` lines 216-249): raise
when the store is not initialized, else filter the backend query rows by
the similarity threshold.  `rows` is the backend response for the embedded
query (parallel arrays modelled as a list of triples). -/
def search_similar (st : VectorStoreState)
    (rows : List (String × TemplateMetadata × ℚ)) (similarity_threshold : ℚ) :
    Except String (List RetrievedMatch) :=
  match st.collection with
  | none => .error "Vector database not initialized"
  | some _ => .ok (search_similar_filter rows similarity_threshold)

/-! ## `RAGEngine` (`app/core/rag_engine.py`) -/

/-- The 80-character separator `"="*80` used by `format_retrieval_context`. -/
def eq80 : String := ⟨List.replicate 80 '='⟩

/-- The truncated content body rendered inside one context section:
`content[:800]` plus `"..."` when `len(content) > 800`. -/
def renderedBody (content : String) : String :=
  pyTake content 800 ++ (if 800 < pyLen content then "..." else "")

/-- The `template_info` f-string built for match number `i` (0-based) in
`format_retrieval_context` (`rag_engine.py` lines 90-103).  `fmt2f` models
Python float formatting `{similarity:.2f}`. -/
def template_info (fmt2f : ℚ → String) (i : Nat) (doc : RetrievedMatch) : String :=
  "\nTemplate " ++ toString (i + 1) ++ " (Similarity: " ++ fmt2f doc.similarity
    ++ "):\n- ID: " ++ doc.metadata.template_id
    ++ "\n- Name: " ++ doc.metadata.name
    ++ "\n- Severity: " ++ doc.metadata.severity
    ++ "\n- Author: " ++ doc.metadata.author
    ++ "\n- Tags: " ++ doc.metadata.tags
    ++ "\n- Description: " ++ doc.metadata.description
    ++ "\n\nTemplate Content:\n```yaml\n" ++ renderedBody doc.content
    ++ "\n```\n"

/-- The `context_parts` accumulation loop of `format_retrieval_context`:
one `template_info` section per retrieved document, in input order. -/
def contextParts (fmt2f : ℚ → String) (docs : List RetrievedMatch) : List String :=
  docs.enum.foldl (fun acc p => acc ++ [template_info fmt2f p.1 p.2]) []

/-- `RAGEngine.format_retrieval_context` (`rag_engine.py` lines 80-106):
the fixed sentence on an empty result list, otherwise a newline, the `=`
separator line, and the sections joined by newlines. -/
def format_retrieval_context (fmt2f : ℚ → String)
    (retrieved_docs : List RetrievedMatch) : String :=
  if retrieved_docs = [] then "No similar templates found."
  else "\n" ++ eq80 ++ pyJoin "\n" (contextParts fmt2f retrieved_docs)

/-- The metadata post-filter of `RAGEngine.get_templates_by_tags`
(`rag_engine.py` lines 190-194), exactly as written: `template_tags` is the
metadata `tags` value (the comma-joined string produced by ingestion), and
the Python comprehension `[t.lower() for t in template_tags]` iterates that
string character by character, so the membership test compares each
requested tag against single-character strings. -/
def tags_filter (tags : List String) (results : List RetrievedMatch) :
    List RetrievedMatch :=
  results.foldl
    (fun acc result =>
      let template_tags := result.metadata.tags
      if tags.any (fun tag =>
          (template_tags.toList.map (fun c => String.mk [c.toLower])).contains
            (pyLower tag)) then
        acc ++ [result]
      else acc)
    []

/-- Modelled from the spec: the intended tag filter of `byTags` — keep a
match iff its ingested tag set (the comma-joined metadata string split back
on `", "`) has a case-insensitive non-empty intersection with the requested
tag list. -/
def tags_filter_spec (tags : List String) (results : List RetrievedMatch) :
    List RetrievedMatch :=
  results.filter fun result =>
    tags.any fun tag =>
      ((pySplitCommaSpace result.metadata.tags).map pyLower).contains (pyLower tag)

/-! ## `NucleiTemplateService._extract_yaml_content`
(`app/core/nuclei_service.py` lines 246-295) -/

/-- The fenced-block pass: state `(in_yaml_block, found_yaml_block,
yaml_lines)`; a line opening a fence enters the block, a bare closing fence
inside the block terminates the scan, and lines inside the block are
collected. -/
def fencedScan : List String → Bool → Bool → List String → Bool × List String
  | [], _, found, acc => (found, acc)
  | l :: rest, inB, found, acc =>
    if pyStarts (pyStrip l) "```yaml" || pyStarts (pyStrip l) "```yml" then
      fencedScan rest true true acc
    else if pyStrip l == "```" && inB then (found, acc)
    else if inB then fencedScan rest inB found (acc ++ [l])
    else fencedScan rest inB found acc

/-- The structural keys whose opening marks the start of YAML content in the
fallback scan. -/
def structuralKeys : List String :=
  ["id:", "info:", "variables:", "requests:", "http:", "network:", "file:"]

/-- The fallback pass: skip markdown headers and emphasis before YAML has
started, skip non-yaml fences, start collecting at the first line opening a
structural key.  The `**` check mirrors the Python operator precedence
`startswith("**") or (startswith("*") and not yaml_started)`. -/
def keyScan : List String → Bool → List String → List String
  | [], _, acc => acc
  | l :: rest, started, acc =>
    let ls := pyStrip l
    if pyStarts ls "#" && !started then keyScan rest started acc
    else if pyStarts ls "**" || (pyStarts ls "*" && !started) then
      keyScan rest started acc
    else if pyStarts ls "```" && !pyStarts ls "```yaml" then
      keyScan rest started acc
    else
      let started := started || structuralKeys.any (fun k => pyStarts ls k)
      if started then keyScan rest started (acc ++ [l])
      else keyScan rest started acc

/-- `NucleiTemplateService._extract_yaml_content`: prefer a non-empty fenced
block, else the structural-key scan, else fall back to the stripped whole
response. -/
def extract_yaml_content (content : String) : String :=
  let lines := pySplitLines content
  let fr := fencedScan lines false false []
  let yaml_content :=
    if fr.1 && !fr.2.isEmpty then pyStrip (pyJoin "\n" fr.2)
    else pyStrip (pyJoin "\n" (keyScan lines false []))
  if yaml_content == "" then pyStrip content else yaml_content

/-- The single collection pass of `NucleiAgent._extract_yaml_content`
(`app/core/agent.py` lines 215-235): fenced blocks are honoured, and outside
a block every line not opening with a markdown marker is collected. -/
def agentScan : List String → Bool → List String → List String
  | [], _, acc => acc
  | l :: rest, inB, acc =>
    if pyStarts (pyStrip l) "```yaml" || pyStarts (pyStrip l) "```yml" then
      agentScan rest true acc
    else if pyStrip l == "```" && inB then acc
    else if inB
        || !(["```", "#", "**", "*"].any (fun p => pyStarts (pyStrip l) p)) then
      agentScan rest inB (acc ++ [l])
    else agentScan rest inB acc

/-- `NucleiAgent._extract_yaml_content`: collect, join, strip; fall back to
the raw (unstripped) response when nothing was collected. -/
def agent_extract_yaml_content (content : String) : String :=
  let yaml_content := pyStrip (pyJoin "\n" (agentScan (pySplitLines content) false []))
  if yaml_content == "" then content else yaml_content

/-! ## `NucleiTemplateService.generate_template`
(`app/core/nuclei_service.py` lines 130-214)

The LLM generation call (which may raise), the validator, and the
refinement call are modelled as per-attempt oracles; `Except.error msg`
models a raised exception with message `msg`. -/

/-- The external collaborators of one `generate_template` run. -/
structure GenOracles where
  genO : Nat → Except String String
  valO : Nat → String → ValidationResult
  refO : Nat → String → ValidationResult → Except String String

/-- The loop-carried state of the retry loop, plus the number of
Generate/Refine cycles (loop iterations) entered so far. -/
structure GenLoopState where
  g : Option String
  lv : Option ValidationResult
  cycles : Nat
  deriving Repr

/-- The shared `except` handler of the retry loop (`nuclei_service.py`
lines 179-187): record a synthetic failed validation result and clear the
template on the last attempt. -/
def loopExcept (attempt max_retries : Nat) (msg : String)
    (st : GenLoopState) : GenLoopState :=
  let st := { st with
    lv := some ⟨false,
      ["Generation attempt " ++ toString (attempt + 1) ++ " failed: " ++ msg],
      []⟩ }
  if attempt == max_retries - 1 then { st with g := none } else st

/-- The body of `for attempt in range(max_retries)` (`nuclei_service.py`
lines 152-187), iterated over the remaining attempt indices; returning
without recursing models `break`. -/
def genLoopAux (o : GenOracles) (validation_required : Bool)
    (max_retries : Nat) : List Nat → GenLoopState → GenLoopState
  | [], st => st
  | attempt :: rest, st =>
    let st := { st with cycles := st.cycles + 1 }
    match o.genO attempt with
    | .error msg => genLoopAux o validation_required max_retries rest
        (loopExcept attempt max_retries msg st)
    | .ok tpl =>
      if validation_required then
        let vr := o.valO attempt tpl
        let st := { st with g := some tpl, lv := some vr }
        if vr.is_valid then st
        else if attempt < max_retries - 1 then
          match o.refO attempt tpl vr with
          | .ok refined =>
            genLoopAux o validation_required max_retries rest
              { st with g := some refined }
          | .error msg => genLoopAux o validation_required max_retries rest
              (loopExcept attempt max_retries msg st)
        else
          genLoopAux o validation_required max_retries rest { st with g := none }
      else
        { st with g := some tpl, lv := some ⟨true, [], []⟩ }

/-- The whole retry loop of `generate_template`. -/
def genLoop (o : GenOracles) (validation_required : Bool) (max_retries : Nat) :
    GenLoopState :=
  genLoopAux o validation_required max_retries (List.range max_retries)
    ⟨none, none, 0⟩

/-- `NucleiTemplateService.generate_template` after the loop
(`nuclei_service.py` lines 189-214): raise (and hence answer the failure
response) when no template survived or the last validation failed, else
answer the success response with the extracted template id. -/
def generate_template (o : GenOracles) (extractId : String → String)
    (validation_required : Bool) (max_retries : Nat) :
    TemplateGenerationResponse :=
  let st := genLoop o validation_required max_retries
  let noTemplate := match st.g with
    | none => true
    | some t => t == ""
  let invalidLast := match st.lv with
    | none => false
    | some vr => !vr.is_valid
  if noTemplate || invalidLast then ⟨false, "failed_generation", ""⟩
  else
    match st.g with
    | some tpl => ⟨true, extractId tpl, tpl⟩
    | none => ⟨false, "failed_generation", ""⟩

/-! ## Theorems -/

/-- C1: for every validator invocation completing with a nonzero exit code,
the parsed `ValidationResult` has `is_valid = false` regardless of which
stdout/stderr lines matched error or warning keywords, the errors list is
non-empty, and when no line was classified as an error the list opens with
the generic error naming the exit code. -/
theorem nonzero_exit_never_valid (stdout stderr : String) (return_code : Int)
    (h : return_code ≠ 0) :
    (parse_validation_output stdout stderr return_code).is_valid = false ∧
    (parse_validation_output stdout stderr return_code).errors ≠ [] ∧
    ((classify_output stdout stderr).1 = [] →
      (parse_validation_output stdout stderr return_code).errors.head? =
        some ("Template validation failed with return code "
          ++ toString return_code)) := by
  have hb : (return_code == 0) = false := by
    simp only [beq_eq_false_iff_ne, ne_eq]
    exact h
  have hbne : (return_code != 0) = true := by simp [bne, hb]
  rcases hEW : classify_output stdout stderr with ⟨E, W⟩
  rcases E with _ | ⟨e, Es⟩
  · refine ⟨?_, ?_, fun _ => ?_⟩ <;>
      simp only [parse_validation_output, hEW, hb, hbne, List.isEmpty_nil,
        Bool.false_and, Bool.not_false, Bool.true_and, Bool.and_self,
        if_true] <;>
      (repeat' split) <;> simp_all
  · refine ⟨?_, ?_, fun hcon => ?_⟩
    · simp [parse_validation_output, hEW, hb]
    · simp [parse_validation_output, hEW, hb]
    · simp at hcon

/-- Witness for C1 at a concrete nonzero exit code. -/
theorem nonzero_exit_never_valid_witness :
    (parse_validation_output "" "" 1).is_valid = false ∧
    (parse_validation_output "" "" 1).errors ≠ [] ∧
    ((classify_output "" "").1 = [] →
      (parse_validation_output "" "" 1).errors.head? =
        some ("Template validation failed with return code "
          ++ toString (1 : Int))) :=
  nonzero_exit_never_valid "" "" 1 (by decide)

/-- C5 counterexample: at the concrete default timeout of 30 seconds, the
`ValidationResult` produced for a timed-out validation subprocess has two
errors, not exactly one; the timeout description is the second entry. -/
theorem timeout_single_error_cex :
    ¬ ((validate_on_timeout 30).errors.length = 1) ∧
    (validate_on_timeout 30).errors.length = 2 ∧
    (validate_on_timeout 30).is_valid = false ∧
    (validate_on_timeout 30).errors =
      ["Template validation failed with return code 1",
       "Stderr: Nuclei validation timed out after 30 seconds"] := by
  decide

/-- C5 amended: when the validation subprocess times out, the returned
`ValidationResult` has `is_valid = false` and exactly two errors: the
generic return-code error followed by a `Stderr:` entry carrying the
timeout description.  (The timeout stderr line itself matches no error
keyword, so only the synthesized errors appear.)  The hypotheses record
that the rendered timeout message is a single keyword-free line, which
holds for every numeric timeout value. -/
theorem timeout_two_errors (timeout : Nat)
    (hK : (["error", "invalid", "failed", "fatal", "warning", "warn",
            "could not", "unable to"].all
        (fun k => !(strContains (pyLower (timeoutMsg timeout)) k))) = true)
    (hT : pyStrip (timeoutMsg timeout) = timeoutMsg timeout)
    (hS : pySplitLines (timeoutMsg timeout) = [timeoutMsg timeout])
    (hNE : timeoutMsg timeout ≠ "") :
    validate_on_timeout timeout =
      ⟨false, ["Template validation failed with return code 1",
               "Stderr: " ++ timeoutMsg timeout], []⟩ := by
  have hne : (timeoutMsg timeout == "") = false := by
    simp only [beq_eq_false_iff_ne, ne_eq]
    exact hNE
  simp only [List.all_cons, List.all_nil, Bool.and_true, Bool.and_eq_true,
    Bool.not_eq_true'] at hK
  obtain ⟨k1, k2, k3, k4, k5, k6, k7, k8⟩ := hK
  have hcls : classify_output "" (timeoutMsg timeout) = ([], []) := by
    unfold classify_output
    rw [hT, hS]
    simp only [List.foldl_cons, List.foldl_nil]
    unfold classifyStderrLine classifyStdoutLine
    rw [hT]
    simp [hne, k1, k2, k3, k4, k5, k6, k7, k8, pyStrip, dropWs, pySplitLines,
      splitLinesAux]
  unfold validate_on_timeout run_subprocess_timeout parse_validation_output
  simp [hcls, hne, bne]
  decide

/-- Witness for C5 amended at the concrete default timeout. -/
theorem timeout_two_errors_witness :
    validate_on_timeout 30 =
      ⟨false, ["Template validation failed with return code 1",
               "Stderr: Nuclei validation timed out after 30 seconds"], []⟩ :=
  timeout_two_errors 30 (by decide) (by decide) (by decide) (by decide)

/-- C4: for fixed backend query rows, raising the similarity threshold never
increases the number of returned matches, and every returned match carries
`similarity = 1 - distance` for one of the rows, at or above the threshold. -/
theorem search_threshold_monotone
    (rows : List (String × TemplateMetadata × ℚ)) (t1 t2 : ℚ) (h : t1 ≤ t2) :
    (search_similar_filter rows t2).length ≤
      (search_similar_filter rows t1).length ∧
    ∀ m ∈ search_similar_filter rows t2,
      t2 ≤ m.similarity ∧ ∃ r ∈ rows, m = ⟨r.1, r.2.1, 1 - r.2.2⟩ := by
  constructor
  · induction rows with
    | nil => simp [search_similar_filter]
    | cons r rest ih =>
      by_cases h2 : t2 ≤ 1 - r.2.2
      · have h1 : t1 ≤ 1 - r.2.2 := le_trans h h2
        simpa [search_similar_filter, h1, h2] using ih
      · by_cases h1 : t1 ≤ 1 - r.2.2
        · simp only [search_similar_filter, h1, h2, if_true, if_false,
            List.length_cons]
          exact Nat.le_succ_of_le ih
        · simpa [search_similar_filter, h1, h2] using ih
  · induction rows with
    | nil => simp [search_similar_filter]
    | cons r rest ih =>
      intro m hm
      by_cases h2 : t2 ≤ 1 - r.2.2
      · simp only [search_similar_filter, h2, if_true, List.mem_cons] at hm
        rcases hm with rfl | hm
        · exact ⟨h2, r, by simp, rfl⟩
        · obtain ⟨hsim, rr, hrr, hmm⟩ := ih m hm
          exact ⟨hsim, rr, by simp [hrr], hmm⟩
      · simp only [search_similar_filter, h2, if_false] at hm
        obtain ⟨hsim, rr, hrr, hmm⟩ := ih m hm
        exact ⟨hsim, rr, by simp [hrr], hmm⟩

/-- A concrete ingested-template metadata record used by the closed
instances below. -/
def sampleMetadata : TemplateMetadata :=
  ⟨"cve-2021-44228", "Log4j RCE", "ai", "critical", "rce in log4j",
   join_tags ["cve"], "", "/templates/cves/log4j.yaml", ""⟩

/-- A concrete search result whose ingested metadata tag string is `cve`. -/
def sampleMatch : RetrievedMatch := ⟨"id: cve-2021-44228", sampleMetadata, 1⟩

/-- Concrete backend rows for the search witness. -/
def sampleRows : List (String × TemplateMetadata × ℚ) :=
  [("id: cve-2021-44228", sampleMetadata, 0)]

/-- Witness for C4 at concrete rows and thresholds 0 ≤ 1. -/
theorem search_threshold_monotone_witness :
    (search_similar_filter sampleRows 1).length ≤
      (search_similar_filter sampleRows 0).length ∧
    ∀ m ∈ search_similar_filter sampleRows 1,
      (1 : ℚ) ≤ m.similarity ∧
        ∃ r ∈ sampleRows, m = ⟨r.1, r.2.1, 1 - r.2.2⟩ :=
  search_threshold_monotone sampleRows 0 1 (by decide)

/-- C6: `add_documents` on a store whose collection was never initialized
fails the whole call with the `RuntimeError` message and leaves the state
untouched, so zero documents and zero chunks are committed. -/
theorem add_documents_uninitialized (embed : String → List ℚ)
    (split_text : String → List String) (md5hex : String → String)
    (st : VectorStoreState) (documents : List NucleiDocument)
    (h : st.collection = none) :
    add_documents embed split_text md5hex st documents =
      (st, .error "Vector database not initialized") := by
  simp [add_documents, h]

/-- Witness for C6 on a concrete fresh store. -/
theorem add_documents_uninitialized_witness :
    add_documents (fun _ => []) (fun s => [s]) (fun _ => "d41d8cd98f00b204")
      ⟨none⟩ [⟨"doc", "id: doc", sampleMetadata⟩] =
      (⟨none⟩, .error "Vector database not initialized") :=
  add_documents_uninitialized _ _ _ _ _ rfl

/-- C7: every chunk id produced by `_split_document` is
`doc_id ++ "_" ++ (first 8 hex chars of md5(file_path)) ++ "_chunk_" ++ i`
with `i` the chunk's sequence index, so the ids are a deterministic
function of the document id, the metadata `file_path` and the index: two
documents agreeing on id, content and file path produce identical chunk-id
lists. -/
theorem chunk_ids_deterministic (split_text : String → List String)
    (md5hex : String → String) (d1 d2 : NucleiDocument)
    (hid : d1.id = d2.id) (hc : d1.content = d2.content)
    (hp : d1.metadata.file_path = d2.metadata.file_path) :
    (split_document split_text md5hex d1).map (fun c => c.id) =
      (List.range (split_text d1.content).length).map
        (fun i => d1.id ++ "_" ++ pyTake (md5hex d1.metadata.file_path) 8
          ++ "_chunk_" ++ toString i) ∧
    (split_document split_text md5hex d1).map (fun c => c.id) =
      (split_document split_text md5hex d2).map (fun c => c.id) := by
  have key : ∀ d : NucleiDocument,
      (split_document split_text md5hex d).map (fun c => c.id) =
        (List.range (split_text d.content).length).map
          (fun i => d.id ++ "_" ++ pyTake (md5hex d.metadata.file_path) 8
            ++ "_chunk_" ++ toString i) := by
    intro d
    unfold split_document
    conv_rhs => rw [← List.enum_map_fst (split_text d.content)]
    rw [List.map_map, List.map_map]
    rfl
  refine ⟨key d1, ?_⟩
  rw [key d1, key d2, hid, hc, hp]

/-- Witness for C7: two documents equal on id, content and file path but
differing in other metadata produce the same chunk ids. -/
theorem chunk_ids_deterministic_witness :
    (split_document (fun s => [s]) (fun _ => "0123456789abcdef")
        ⟨"doc", "id: doc", sampleMetadata⟩).map (fun c => c.id) =
      (List.range [(("id: doc" : String))].length).map
        (fun i => "doc" ++ "_" ++ pyTake "0123456789abcdef" 8
          ++ "_chunk_" ++ toString i) ∧
    (split_document (fun s => [s]) (fun _ => "0123456789abcdef")
        ⟨"doc", "id: doc", sampleMetadata⟩).map (fun c => c.id) =
      (split_document (fun s => [s]) (fun _ => "0123456789abcdef")
        ⟨"doc", "id: doc", { sampleMetadata with severity := "low" }⟩).map
          (fun c => c.id) :=
  chunk_ids_deterministic (fun s => [s]) (fun _ => "0123456789abcdef")
    ⟨"doc", "id: doc", sampleMetadata⟩
    ⟨"doc", "id: doc", { sampleMetadata with severity := "low" }⟩
    rfl rfl rfl

/-- C8 (code bug): the tag filter of `get_templates_by_tags` iterates the
ingested comma-joined tags *string* character by character, so a requested
multi-character tag is compared against single-character strings and never
matches.  On a match whose ingested tag string is exactly `cve`, requesting
tag `cve` discards the match, while the intended case-insensitive
intersection filter (modelled from the spec) keeps it. -/
theorem tags_filter_drops_matching_tag :
    join_tags ["cve"] = "cve" ∧
    sampleMatch.metadata.tags = "cve" ∧
    tags_filter ["cve"] [sampleMatch] = [] ∧
    tags_filter_spec ["cve"] [sampleMatch] = [sampleMatch] := by
  decide

/-- If no line of the input opens a fenced yaml block, the fenced-block pass
never enters a block and returns its accumulator unchanged. -/
lemma fencedScan_no_fence (lines : List String) (found : Bool)
    (acc : List String)
    (h : ∀ l ∈ lines, pyStarts (pyStrip l) "```yaml" = false ∧
      pyStarts (pyStrip l) "```yml" = false) :
    fencedScan lines false found acc = (found, acc) := by
  induction lines with
  | nil => rfl
  | cons l rest ih =>
    obtain ⟨h1, h2⟩ := h l (by simp)
    simp only [fencedScan, h1, h2, Bool.or_self, Bool.and_false,
      Bool.false_eq_true, if_false]
    exact ih fun x hx => h x (List.mem_cons_of_mem _ hx)

/-- If no line of the input opens a structural key, the fallback pass never
starts collecting and returns its accumulator unchanged. -/
lemma keyScan_no_keys (lines : List String) (acc : List String)
    (h : ∀ l ∈ lines,
      structuralKeys.any (fun k => pyStarts (pyStrip l) k) = false) :
    keyScan lines false acc = acc := by
  induction lines with
  | nil => rfl
  | cons l rest ih =>
    have hl := h l (by simp)
    have ihr := ih fun x hx => h x (List.mem_cons_of_mem _ hx)
    simp only [keyScan, Bool.not_false, Bool.and_true, hl, Bool.or_false,
      Bool.false_eq_true, if_false]
    split
    · exact ihr
    · split
      · exact ihr
      · split <;> exact ihr

/-- C9: for every LLM response whose stripped text is non-empty, both YAML
extraction functions return a non-empty string; in particular when no line
opens a fenced yaml block and no line opens a structural key, the service
extraction falls back to the whole (stripped) response. -/
theorem extract_yaml_nonempty (content : String) (h : pyStrip content ≠ "") :
    extract_yaml_content content ≠ "" ∧
    agent_extract_yaml_content content ≠ "" ∧
    ((∀ l ∈ pySplitLines content,
        pyStarts (pyStrip l) "```yaml" = false ∧
        pyStarts (pyStrip l) "```yml" = false) →
      (∀ l ∈ pySplitLines content,
        structuralKeys.any (fun k => pyStarts (pyStrip l) k) = false) →
      extract_yaml_content content = pyStrip content) := by
  have hc : content ≠ "" := by
    intro hc
    exact h (by rw [hc]; rfl)
  have fallback_ne : ∀ x fb : String, fb ≠ "" →
      (if x == "" then fb else x) ≠ "" := by
    intro x fb hf
    by_cases hx : x = ""
    · simpa [hx] using hf
    · simpa [beq_eq_false_iff_ne.mpr hx] using hx
  refine ⟨?_, ?_, ?_⟩
  · simp only [extract_yaml_content]
    exact fallback_ne _ _ h
  · simp only [agent_extract_yaml_content]
    exact fallback_ne _ _ hc
  · intro hf hk
    have h1 : fencedScan (pySplitLines content) false false [] = (false, []) :=
      fencedScan_no_fence _ _ _ hf
    have h2 : keyScan (pySplitLines content) false [] = [] :=
      keyScan_no_keys _ _ hk
    simp [extract_yaml_content, h1, h2, pyJoin, pyStrip, dropWs]

/-- Witness for C9 on a concrete plain-text response. -/
theorem extract_yaml_nonempty_witness :
    extract_yaml_content "hello world" ≠ "" ∧
    agent_extract_yaml_content "hello world" ≠ "" ∧
    ((∀ l ∈ pySplitLines "hello world",
        pyStarts (pyStrip l) "```yaml" = false ∧
        pyStarts (pyStrip l) "```yml" = false) →
      (∀ l ∈ pySplitLines "hello world",
        structuralKeys.any (fun k => pyStarts (pyStrip l) k) = false) →
      extract_yaml_content "hello world" = pyStrip "hello world") :=
  extract_yaml_nonempty "hello world" (by decide)

/-- The accumulator form of a push-style `foldl` is an append of a `map`. -/
lemma foldl_push_eq_map {α β : Type} (f : α → β) (l : List α)
    (acc : List β) :
    l.foldl (fun a x => a ++ [f x]) acc = acc ++ l.map f := by
  induction l generalizing acc with
  | nil => simp
  | cons x xs ih => simp [ih]

/-- The `context_parts` loop collects exactly one section per retrieved
document, numbered by position. -/
lemma contextParts_eq_map (fmt2f : ℚ → String) (docs : List RetrievedMatch) :
    contextParts fmt2f docs =
      docs.enum.map (fun p => template_info fmt2f p.1 p.2) := by
  simp [contextParts, foldl_push_eq_map]

/-- C10: on an empty retrieval list `format_retrieval_context` returns
exactly the sentence `"No similar templates found."`; on a non-empty list
it returns the separator header followed by one numbered section per match
in input order, where the rendered content body is cut at 800 characters
with a `...` marker exactly when the content is longer than 800
characters. -/
theorem format_context_empty_and_sections (fmt2f : ℚ → String)
    (docs : List RetrievedMatch) (hne : docs ≠ [])
    (long short : String) (hlong : 800 < pyLen long)
    (hshort : pyLen short ≤ 800) :
    format_retrieval_context fmt2f [] = "No similar templates found." ∧
    format_retrieval_context fmt2f docs =
      "\n" ++ eq80 ++
        pyJoin "\n" (docs.enum.map (fun p => template_info fmt2f p.1 p.2)) ∧
    (docs.enum.map (fun p => template_info fmt2f p.1 p.2)).length =
      docs.length ∧
    renderedBody long = pyTake long 800 ++ "..." ∧
    renderedBody short = short := by
  refine ⟨rfl, ?_, by simp, ?_, ?_⟩
  · rw [format_retrieval_context, if_neg hne, contextParts_eq_map]
  · simp [renderedBody, hlong]
  · have : ¬ (800 < pyLen short) := by omega
    simp only [renderedBody, this, if_false, String.append_empty]
    unfold pyTake pyLen at *
    cases short with
    | mk data =>
      rw [show String.toList { data := data } = data from rfl] at hshort ⊢
      rw [List.take_of_length_le hshort]

/-- Witness for C10 on a one-element retrieval list, an 801-character
content and a short content. -/
theorem format_context_empty_and_sections_witness :
    format_retrieval_context (fun _ => "0.90") [] =
      "No similar templates found." ∧
    format_retrieval_context (fun _ => "0.90") [sampleMatch] =
      "\n" ++ eq80 ++
        pyJoin "\n" ([sampleMatch].enum.map
          (fun p => template_info (fun _ => "0.90") p.1 p.2)) ∧
    ([sampleMatch].enum.map
      (fun p => template_info (fun _ => "0.90") p.1 p.2)).length =
        [sampleMatch].length ∧
    renderedBody ⟨List.replicate 801 'a'⟩ =
      pyTake ⟨List.replicate 801 'a'⟩ 800 ++ "..." ∧
    renderedBody "id: x" = "id: x" :=
  format_context_empty_and_sections (fun _ => "0.90") [sampleMatch]
    (by decide) ⟨List.replicate 801 'a'⟩ "id: x" (by decide) (by decide)

/-- The shared `except` handler never changes the cycle counter. -/
lemma loopExcept_cycles (attempt max_retries : Nat) (msg : String)
    (st : GenLoopState) :
    (loopExcept attempt max_retries msg st).cycles = st.cycles := by
  unfold loopExcept
  split <;> rfl

/-- Every execution of the retry loop enters at most one iteration per
remaining attempt index. -/
lemma genLoopAux_cycles_le (o : GenOracles) (vreq : Bool) (maxr : Nat)
    (l : List Nat) (st : GenLoopState) :
    (genLoopAux o vreq maxr l st).cycles ≤ st.cycles + l.length := by
  induction l generalizing st with
  | nil => simp [genLoopAux]
  | cons a rest ih =>
    simp only [genLoopAux, List.length_cons]
    cases o.genO a with
    | error msg =>
      have hc : (loopExcept a maxr msg
          { st with cycles := st.cycles + 1 }).cycles = st.cycles + 1 :=
        loopExcept_cycles a maxr msg _
      have hrec := ih (loopExcept a maxr msg { st with cycles := st.cycles + 1 })
      rw [hc] at hrec
      exact le_trans hrec (by omega)
    | ok tpl =>
      dsimp only
      by_cases hv : vreq = true
      · rw [if_pos hv]
        by_cases hval : (o.valO a tpl).is_valid = true
        · rw [if_pos hval]
          show st.cycles + 1 ≤ st.cycles + (rest.length + 1)
          omega
        · rw [if_neg hval]
          by_cases hlt : a < maxr - 1
          · rw [if_pos hlt]
            cases o.refO a tpl (o.valO a tpl) with
            | ok refined =>
              refine le_trans (ih _) ?_
              show st.cycles + 1 + rest.length ≤ st.cycles + (rest.length + 1)
              omega
            | error msg =>
              have hc : ∀ st' : GenLoopState,
                  (loopExcept a maxr msg st').cycles = st'.cycles :=
                loopExcept_cycles a maxr msg
              refine le_trans (ih _) ?_
              rw [hc]
              show st.cycles + 1 + rest.length ≤ st.cycles + (rest.length + 1)
              omega
          · rw [if_neg hlt]
            refine le_trans (ih _) ?_
            show st.cycles + 1 + rest.length ≤ st.cycles + (rest.length + 1)
            omega
      · rw [if_neg hv]
        show st.cycles + 1 ≤ st.cycles + (rest.length + 1)
        omega

/-- C2: for every environment and every retry budget `max_retries ≥ 1`, the
generation service performs at most `max_retries` Generate/Refine cycles and
always terminates with a result: either a success response carrying an
extracted template id, or the fixed failure response. -/
theorem generate_terminates_bounded (o : GenOracles)
    (extractId : String → String) (validation_required : Bool)
    (max_retries : Nat) (h : 1 ≤ max_retries) :
    (genLoop o validation_required max_retries).cycles ≤ max_retries ∧
    ((∃ tpl, generate_template o extractId validation_required max_retries =
        ⟨true, extractId tpl, tpl⟩) ∨
      generate_template o extractId validation_required max_retries =
        ⟨false, "failed_generation", ""⟩) := by
  constructor
  · have hrec := genLoopAux_cycles_le o validation_required max_retries
      (List.range max_retries) ⟨none, none, 0⟩
    simpa [genLoop] using hrec
  · simp only [generate_template]
    split
    · right
      rfl
    · cases hg : (genLoop o validation_required max_retries).g with
      | some tpl =>
        left
        exact ⟨tpl, by simp [hg]⟩
      | none =>
        right
        simp [hg]

/-- A concrete environment whose first generation attempt validates. -/
def oWitness : GenOracles :=
  ⟨fun _ => .ok "id: ok", fun _ _ => ⟨true, [], []⟩, fun _ t _ => .ok t⟩

/-- Witness for C2 on a concrete environment with budget 3. -/
theorem generate_terminates_bounded_witness :
    (genLoop oWitness true 3).cycles ≤ 3 ∧
    ((∃ tpl, generate_template oWitness (fun t => t) true 3 =
        ⟨true, (fun t : String => t) tpl, tpl⟩) ∨
      generate_template oWitness (fun t => t) true 3 =
        ⟨false, "failed_generation", ""⟩) :=
  generate_terminates_bounded oWitness (fun t => t) true 3 (by decide)

/-- The environment in which the validator binary is missing: every
generation succeeds and every validation returns the binary-not-found
result. -/
def binaryMissingOracles (binary : String) (gen : Nat → String)
    (ref : Nat → String → String) : GenOracles :=
  ⟨fun i => .ok (gen i), fun _ _ => binary_not_found_result binary,
   fun i t _ => .ok (ref i t)⟩

/-- When every generation attempt succeeds, every refinement succeeds and
every validation returns the same invalid result, the retry loop enters one
iteration per remaining attempt index and, on a non-empty run, ends with
that invalid result as the last validation result. -/
lemma genLoopAux_all_invalid (o : GenOracles) (vrbad : ValidationResult)
    (hbad : vrbad.is_valid = false)
    (hgen : ∀ i, ∃ t, o.genO i = .ok t)
    (hval : ∀ i t, o.valO i t = vrbad)
    (href : ∀ i t vr, ∃ r, o.refO i t vr = .ok r)
    (maxr : Nat) (l : List Nat) (st : GenLoopState) :
    (genLoopAux o true maxr l st).cycles = st.cycles + l.length ∧
    (l ≠ [] → (genLoopAux o true maxr l st).lv = some vrbad) := by
  induction l generalizing st with
  | nil => simp [genLoopAux]
  | cons a rest ih =>
    obtain ⟨t, hgt⟩ := hgen a
    simp only [genLoopAux, hgt]
    rw [if_pos trivial, hval a t, if_neg (by simp [hbad])]
    by_cases hlt : a < maxr - 1
    · rw [if_pos hlt]
      obtain ⟨r, hr⟩ := href a t vrbad
      rw [hr]
      dsimp only
      obtain ⟨ihc, ihl⟩ :=
        ih { g := some r, lv := some vrbad, cycles := st.cycles + 1 }
      constructor
      · rw [ihc]
        show st.cycles + 1 + rest.length = st.cycles + (rest.length + 1)
        omega
      · intro _
        rcases rest with _ | ⟨b, rest2⟩
        · simp [genLoopAux]
        · exact ihl (by simp)
    · rw [if_neg hlt]
      obtain ⟨ihc, ihl⟩ :=
        ih { g := none, lv := some vrbad, cycles := st.cycles + 1 }
      constructor
      · rw [ihc]
        show st.cycles + 1 + rest.length = st.cycles + (rest.length + 1)
        omega
      · intro _
        rcases rest with _ | ⟨b, rest2⟩
        · simp [genLoopAux]
        · exact ihl (by simp)

/-- C3 counterexample: with the validator binary missing from the first
attempt on and a retry budget of 2, the orchestrator performs 2
Generate/Refine cycles — it does not stop after the first validator-
unavailable result, so a validator-unavailable result does consume retry
budget. -/
theorem validator_missing_stops_immediately_cex :
    (genLoop (binaryMissingOracles "nuclei" (fun _ => "id: test")
        (fun _ t => t)) true 2).cycles = 2 ∧
    ¬ ((genLoop (binaryMissingOracles "nuclei" (fun _ => "id: test")
        (fun _ t => t)) true 2).cycles ≤ 1) := by
  decide

/-- C3 amended: when the validator binary is missing, `validate` returns
`is_valid = false` with the `Nuclei binary not found` error, but the
orchestrator does NOT stop early: it treats the result like any other
validation failure, performing one Generate/Refine cycle per unit of retry
budget until `max_retries` is exhausted, and then returns the failure
response. -/
theorem validator_missing_consumes_budget (binary : String)
    (gen : Nat → String) (ref : Nat → String → String)
    (extractId : String → String) (max_retries : Nat) (h : 1 ≤ max_retries) :
    (binary_not_found_result binary).is_valid = false ∧
    (binary_not_found_result binary).errors =
      ["Nuclei binary not found: " ++ binary] ∧
    (genLoop (binaryMissingOracles binary gen ref) true max_retries).cycles =
      max_retries ∧
    generate_template (binaryMissingOracles binary gen ref) extractId true
        max_retries = ⟨false, "failed_generation", ""⟩ := by
  obtain ⟨hcyc, hlvf⟩ := genLoopAux_all_invalid
    (binaryMissingOracles binary gen ref) (binary_not_found_result binary)
    rfl (fun i => ⟨gen i, rfl⟩) (fun i t => rfl)
    (fun i t vr => ⟨ref i t, rfl⟩) max_retries (List.range max_retries)
    ⟨none, none, 0⟩
  have hlv : (genLoop (binaryMissingOracles binary gen ref) true
      max_retries).lv = some (binary_not_found_result binary) := by
    apply hlvf
    simp only [ne_eq, List.range_eq_nil]
    omega
  refine ⟨rfl, rfl, ?_, ?_⟩
  · simpa [genLoop] using hcyc
  · simp [generate_template, hlv, binary_not_found_result]

/-- Witness for C3 amended at a concrete binary name and budget 2. -/
theorem validator_missing_consumes_budget_witness :
    (binary_not_found_result "nuclei").is_valid = false ∧
    (binary_not_found_result "nuclei").errors =
      ["Nuclei binary not found: " ++ "nuclei"] ∧
    (genLoop (binaryMissingOracles "nuclei" (fun _ => "id: t")
        (fun _ t => t)) true 2).cycles = 2 ∧
    generate_template (binaryMissingOracles "nuclei" (fun _ => "id: t")
        (fun _ t => t)) (fun t => t) true 2 =
      ⟨false, "failed_generation", ""⟩ :=
  validator_missing_consumes_budget "nuclei" (fun _ => "id: t")
    (fun _ t => t) (fun t => t) 2 (by decide)

end OasmNucleiGen
